import Mathlib

/-
Verification of the Black-Scholes options calculator core (script.js).

The JavaScript source computes with IEEE doubles; here each numeric value is
modelled as an exact real number, with Real.exp, Real.log, Real.sqrt and
Real.pi standing for the corresponding Math primitives.  JavaScript null or
missing numbers are modelled as Option values, and the truthiness test
applied to them in the source (null, 0 and NaN are falsy; NaN does not arise
in the modelled data) is modelled by optTruthy.  Number.toFixed only renders
digits into display strings, so it enters as an abstract formatting
parameter fmt of the signal generator.  Dates enter the core only through
getTime, so they are modelled as their millisecond values.
-/

noncomputable section

open scoped Classical

/-- Truthiness of an optional JavaScript number: present and nonzero. -/
def optTruthy (o : Option ℝ) : Prop := o ≠ none ∧ o ≠ some 0

/-- Contract data as assembled by getFormData: symbol, strike, expiration
(milliseconds, from Date.getTime), type string, optional market price. -/
structure OptionContract where
  underlyingSymbol : String
  strikePrice : ℝ
  expirationMs : ℝ
  optionType : String
  currentPrice : Option ℝ

/-- Market data as assembled by getFormData; timestampMs is the getTime value
of the as-of Date. -/
structure MarketData where
  underlyingPrice : ℝ
  riskFreeRate : ℝ
  dividendYield : ℝ
  timestampMs : ℝ

/-- Result bundle produced by analyzeOption. -/
structure AnalysisResult where
  theoreticalPrice : ℝ
  delta : ℝ
  gamma : ℝ
  theta : ℝ
  vega : ℝ
  rho : ℝ
  impliedVolatility : ℝ
  timeToExpiry : ℝ

/-- Signal record produced by generateTradingSignal. -/
structure TradingSignal where
  action : String
  confidence : ℝ
  reasoning : String
  fairValue : ℝ
  marketPrice : ℝ
  edge : ℝ

/-- SECONDS_PER_YEAR constant of the calculator. -/
def SECONDS_PER_YEAR : ℝ := 365.25 * 24 * 3600

/-- normCDF: the Abramowitz-Stegun approximation of the standard normal CDF,
exactly as coded (five coefficients, p = 0.3275911, sign flip on the
correction term). -/
def normCDF (x : ℝ) : ℝ :=
  let a1 : ℝ := 0.254829592
  let a2 : ℝ := -0.284496736
  let a3 : ℝ := 1.421413741
  let a4 : ℝ := -1.453152027
  let a5 : ℝ := 1.061405429
  let p : ℝ := 0.3275911
  let sign : ℝ := if x < 0 then -1 else 1
  let z : ℝ := |x| / Real.sqrt 2
  let t : ℝ := 1 / (1 + p * z)
  let y : ℝ :=
    1 - (((((a5 * t + a4) * t) + a3) * t + a2) * t + a1) * t * Real.exp (-(z * z))
  0.5 * (1 + sign * y)

/-- normPDF: standard normal density. -/
def normPDF (x : ℝ) : ℝ :=
  (1 / Real.sqrt (2 * Real.pi)) * Real.exp (-(0.5) * x * x)

/-- timeToExpiration: (expiration - now) in milliseconds over a year of
milliseconds, clamped below at 0. -/
def timeToExpiration (expirationMs nowMs : ℝ) : ℝ :=
  max ((expirationMs - nowMs) / (SECONDS_PER_YEAR * 1000)) 0

/-- The d1 quantity shared by every Black-Scholes formula in the source:
log of dividend-adjusted spot over strike plus drift, over sigma root T. -/
def d1 (S K T r sigma q : ℝ) : ℝ :=
  (Real.log (S * Real.exp (-q * T) / K) + (r + 0.5 * sigma * sigma) * T) /
    (sigma * Real.sqrt T)

/-- The d2 quantity: d1 minus sigma root T. -/
def d2 (S K T r sigma q : ℝ) : ℝ :=
  d1 S K T r sigma q - sigma * Real.sqrt T

/-- blackScholesPrice: intrinsic value for T at or past expiry, otherwise the
closed-form call or put price with dividend-adjusted spot. -/
def blackScholesPrice (S K T r sigma : ℝ) (optionType : String) (q : ℝ) : ℝ :=
  if T ≤ 0 then
    if optionType = "call" then max (S - K) 0 else max (K - S) 0
  else if optionType = "call" then
    S * Real.exp (-q * T) * normCDF (d1 S K T r sigma q) -
      K * Real.exp (-r * T) * normCDF (d2 S K T r sigma q)
  else
    K * Real.exp (-r * T) * normCDF (-(d2 S K T r sigma q)) -
      S * Real.exp (-q * T) * normCDF (-(d1 S K T r sigma q))

/-- calculateDelta: moneyness step at expiry, otherwise the usual formula. -/
def calculateDelta (S K T r sigma : ℝ) (optionType : String) (q : ℝ) : ℝ :=
  if T ≤ 0 then
    if optionType = "call" then (if S > K then 1 else 0)
    else (if S < K then -1 else 0)
  else if optionType = "call" then
    Real.exp (-q * T) * normCDF (d1 S K T r sigma q)
  else
    -(Real.exp (-q * T) * normCDF (-(d1 S K T r sigma q)))

/-- calculateGamma: 0 at expiry, otherwise exp(-qT) pdf(d1)/(S sigma root T). -/
def calculateGamma (S K T r sigma q : ℝ) : ℝ :=
  if T ≤ 0 then 0
  else
    Real.exp (-q * T) * normPDF (d1 S K T r sigma q) /
      (S * sigma * Real.sqrt T)

/-- calculateTheta: 0 at expiry, otherwise the annualized theta divided by
365.25 for a per-day figure. -/
def calculateTheta (S K T r sigma : ℝ) (optionType : String) (q : ℝ) : ℝ :=
  if T ≤ 0 then 0
  else
    (if optionType = "call" then
      -(S * Real.exp (-q * T)) * normPDF (d1 S K T r sigma q) * sigma /
          (2 * Real.sqrt T) +
        q * (S * Real.exp (-q * T)) * normCDF (d1 S K T r sigma q) -
        r * K * Real.exp (-r * T) * normCDF (d2 S K T r sigma q)
    else
      -(S * Real.exp (-q * T)) * normPDF (d1 S K T r sigma q) * sigma /
          (2 * Real.sqrt T) -
        q * (S * Real.exp (-q * T)) * normCDF (-(d1 S K T r sigma q)) +
        r * K * Real.exp (-r * T) * normCDF (-(d2 S K T r sigma q))) / 365.25

/-- calculateVega: 0 at expiry, otherwise adjusted spot times pdf(d1) times
root T, over 100 (per one percentage point of volatility). -/
def calculateVega (S K T r sigma q : ℝ) : ℝ :=
  if T ≤ 0 then 0
  else
    S * Real.exp (-q * T) * normPDF (d1 S K T r sigma q) * Real.sqrt T / 100

/-- calculateRho: 0 at expiry, otherwise K T exp(-rT) N(d2) (negated N(-d2)
for puts), over 100. -/
def calculateRho (S K T r sigma : ℝ) (optionType : String) (q : ℝ) : ℝ :=
  if T ≤ 0 then 0
  else
    (if optionType = "call" then
      K * T * Real.exp (-r * T) * normCDF (d2 S K T r sigma q)
    else
      -(K * T * Real.exp (-r * T) * normCDF (-(d2 S K T r sigma q)))) / 100

/-- One pass of the Newton-Raphson loop in calculateImpliedVolatility, with
the remaining iteration count as fuel: return the iterate on convergence,
stop with none on exactly zero vega, otherwise take the clamped Newton step. -/
def ivIter (P S K T r : ℝ) (optionType : String) (q tol : ℝ) :
    ℕ → ℝ → Option ℝ
  | 0, _ => none
  | n + 1, vol =>
    if |blackScholesPrice S K T r vol optionType q - P| < tol then some vol
    else if calculateVega S K T r vol q * 100 = 0 then none
    else
      ivIter P S K T r optionType q tol n
        (max 0.001
          (min
            (vol -
              (blackScholesPrice S K T r vol optionType q - P) /
                (calculateVega S K T r vol q * 100))
            5))

/-- calculateImpliedVolatility: none at or past expiry, otherwise up to
maxIterations Newton steps from the starting guess 0.3. -/
def calculateImpliedVolatility (optionPrice S K T r : ℝ) (optionType : String)
    (q : ℝ) (maxIterations : ℕ) (tolerance : ℝ) : Option ℝ :=
  if T ≤ 0 then none
  else ivIter optionPrice S K T r optionType q tolerance maxIterations 0.3

/-- analyzeOption: resolve the working volatility (estimate if truthy, else a
solve from a truthy market price, else the 0.3 default, where a falsy solve
outcome also falls back to 0.3), then price and all five Greeks at it. -/
def analyzeOption (contract : OptionContract) (marketData : MarketData)
    (volatilityEstimate : Option ℝ) : AnalysisResult :=
  let timeToExpiry := timeToExpiration contract.expirationMs marketData.timestampMs
  let solved : Option ℝ :=
    if ¬ optTruthy volatilityEstimate ∧ optTruthy contract.currentPrice then
      calculateImpliedVolatility (contract.currentPrice.getD 0)
        marketData.underlyingPrice contract.strikePrice timeToExpiry
        marketData.riskFreeRate contract.optionType marketData.dividendYield
        100 (1e-6)
    else volatilityEstimate
  let volatility : ℝ := if optTruthy solved then solved.getD 0.3 else 0.3
  { theoreticalPrice :=
      blackScholesPrice marketData.underlyingPrice contract.strikePrice
        timeToExpiry marketData.riskFreeRate volatility contract.optionType
        marketData.dividendYield
    delta :=
      calculateDelta marketData.underlyingPrice contract.strikePrice
        timeToExpiry marketData.riskFreeRate volatility contract.optionType
        marketData.dividendYield
    gamma :=
      calculateGamma marketData.underlyingPrice contract.strikePrice
        timeToExpiry marketData.riskFreeRate volatility marketData.dividendYield
    theta :=
      calculateTheta marketData.underlyingPrice contract.strikePrice
        timeToExpiry marketData.riskFreeRate volatility contract.optionType
        marketData.dividendYield
    vega :=
      calculateVega marketData.underlyingPrice contract.strikePrice
        timeToExpiry marketData.riskFreeRate volatility marketData.dividendYield
    rho :=
      calculateRho marketData.underlyingPrice contract.strikePrice
        timeToExpiry marketData.riskFreeRate volatility contract.optionType
        marketData.dividendYield
    impliedVolatility := volatility
    timeToExpiry := timeToExpiry }

/-- The edge computed by generateTradingSignal: relative mispricing, or 0
when the market price is not positive. -/
def edgeOf (fairValue marketPrice : ℝ) : ℝ :=
  if marketPrice > 0 then (fairValue - marketPrice) / marketPrice else 0

/-- generateTradingSignal: the HOLD record when no truthy market price is
present; AVOID inside 0.02 years; otherwise BUY, SELL or HOLD by comparing
the edge with the threshold, HOLD confidence inverted.  fmt stands for
Number.toFixed. -/
def generateTradingSignal (fmt : ℝ → ℕ → String) (contract : OptionContract)
    (marketData : MarketData) (result : AnalysisResult)
    (edgeThreshold : ℝ) : TradingSignal :=
  if ¬ optTruthy contract.currentPrice then
    { action := "HOLD"
      confidence := 0
      reasoning := "No market price available for analysis"
      fairValue := result.theoreticalPrice
      marketPrice := 0
      edge := 0 }
  else
    let fairValue := result.theoreticalPrice
    let marketPrice := contract.currentPrice.getD 0
    let edge := edgeOf fairValue marketPrice
    if result.timeToExpiry < 0.02 then
      { action := "AVOID"
        confidence := 0.8
        reasoning :=
          "Option expires too soon (" ++ fmt result.timeToExpiry 3 ++
            " years remaining)"
        fairValue := fairValue
        marketPrice := marketPrice
        edge := edge }
    else
      let confidence := min (|edge| / edgeThreshold) 1
      let ar : String × String :=
        if edge > edgeThreshold then
          ("BUY",
            "Option undervalued by " ++ fmt (edge * 100) 1 ++
              "%. Fair value: $" ++ fmt fairValue 2 ++ " vs Market: $" ++
              fmt marketPrice 2)
        else if edge < -edgeThreshold then
          ("SELL",
            "Option overvalued by " ++ fmt (|edge| * 100) 1 ++
              "%. Fair value: $" ++ fmt fairValue 2 ++ " vs Market: $" ++
              fmt marketPrice 2)
        else
          ("HOLD",
            "Option fairly valued (edge: " ++ fmt (edge * 100) 1 ++
              "%). Fair value: $" ++ fmt fairValue 2 ++ " vs Market: $" ++
              fmt marketPrice 2)
      { action := ar.1
        confidence := if ar.1 = "HOLD" then 1 - confidence else confidence
        reasoning :=
          ar.2 ++ "\nGreeks - Delta: " ++ fmt result.delta 3 ++ ", Theta: " ++
            fmt result.theta 2 ++ ", Vega: " ++ fmt result.vega 2
        fairValue := fairValue
        marketPrice := marketPrice
        edge := edge }

/-- One displayed target row of the PnL card: revalued option price at the
target spot with everything else from the original analysis, total value,
profit and percentage return. -/
structure TargetPnL where
  targetPrice : ℝ
  targetOptionValue : ℝ
  totalTargetValue : ℝ
  pnl : ℝ
  pnlPercent : ℝ

/-- calculateAndDisplayTargetPnL: revalue at the target spot using the stored
strike, time to expiry, rate, resolved volatility, type and dividend yield,
then the position PnL against the given total investment. -/
def calculateTargetPnL (contract : OptionContract) (marketData : MarketData)
    (result : AnalysisResult) (positionSize totalInvestment targetPrice : ℝ) :
    TargetPnL :=
  let targetOptionValue :=
    blackScholesPrice targetPrice contract.strikePrice result.timeToExpiry
      marketData.riskFreeRate result.impliedVolatility contract.optionType
      marketData.dividendYield
  let totalTargetValue := positionSize * targetOptionValue * 100
  let pnl := totalTargetValue - totalInvestment
  { targetPrice := targetPrice
    targetOptionValue := targetOptionValue
    totalTargetValue := totalTargetValue
    pnl := pnl
    pnlPercent := pnl / totalInvestment * 100 }

/-- displayPnLAnalysis: nothing without a truthy position size and a nonempty
target list; otherwise the current option price (market price if truthy, else
theoretical), the total investment, and one row per truthy target among the
first three. -/
def displayPnLAnalysis (contract : OptionContract) (marketData : MarketData)
    (result : AnalysisResult) (signal : TradingSignal)
    (positionSize : Option ℝ) (priceTargets : List ℝ) :
    Option (ℝ × ℝ × List TargetPnL) :=
  if ¬ optTruthy positionSize ∨ priceTargets = [] then none
  else
    let pos := positionSize.getD 0
    let currentOptionPrice :=
      if signal.marketPrice ≠ 0 then signal.marketPrice
      else result.theoreticalPrice
    let totalInvestment := pos * currentOptionPrice * 100
    some (currentOptionPrice, totalInvestment,
      ((priceTargets.take 3).filter (fun t => decide (t ≠ 0))).map
        (calculateTargetPnL contract marketData result pos totalInvestment))

lemma optTruthy_none : ¬ optTruthy (none : Option ℝ) := by
  simp [optTruthy]

lemma optTruthy_some {x : ℝ} (hx : x ≠ 0) : optTruthy (some x) := by
  simp [optTruthy, hx]

lemma optTruthy_some_zero : ¬ optTruthy (some (0 : ℝ)) := by
  simp [optTruthy]

lemma not_optTruthy_iff {o : Option ℝ} :
    ¬ optTruthy o ↔ o = none ∨ o = some 0 := by
  simp only [optTruthy, not_and_or, not_not]

lemma normCDF_symm (x : ℝ) (hx : x ≠ 0) : normCDF (-x) = 1 - normCDF x := by
  rcases hx.lt_or_lt with h | h
  · simp only [normCDF, abs_neg]
    rw [if_neg (by linarith : ¬ -x < 0), if_pos h]
    ring
  · simp only [normCDF, abs_neg]
    rw [if_pos (by linarith : -x < 0), if_neg (by linarith : ¬ x < 0)]
    ring

lemma normCDF_zero : normCDF 0 = 0.5 + 5e-10 := by
  simp only [normCDF]
  rw [if_neg (lt_irrefl (0 : ℝ))]
  rw [abs_zero, zero_div]
  norm_num

lemma ivIter_some_spec (P S K T r : ℝ) (optionType : String) (q tol : ℝ) :
    ∀ n vol sigma, 0.001 ≤ vol → vol ≤ 5 →
      ivIter P S K T r optionType q tol n vol = some sigma →
      |blackScholesPrice S K T r sigma optionType q - P| < tol ∧
        0.001 ≤ sigma ∧ sigma ≤ 5 := by
  intro n
  induction n with
  | zero =>
    intro vol sigma _ _ h
    simp [ivIter] at h
  | succ n ih =>
    intro vol sigma h1 h5 h
    rw [ivIter] at h
    by_cases hconv : |blackScholesPrice S K T r vol optionType q - P| < tol
    · rw [if_pos hconv, Option.some_inj] at h
      subst h
      exact ⟨hconv, h1, h5⟩
    · rw [if_neg hconv] at h
      by_cases hvega : calculateVega S K T r vol q * 100 = 0
      · rw [if_pos hvega] at h
        exact Option.noConfusion h
      · rw [if_neg hvega] at h
        exact ih _ _ (le_max_left _ _)
          (max_le (by norm_num) (min_le_right _ _)) h

lemma calcIV_nonpos (P S K T r : ℝ) (optionType : String) (q : ℝ)
    (maxIterations : ℕ) (tol : ℝ) (hT : T ≤ 0) :
    calculateImpliedVolatility P S K T r optionType q maxIterations tol =
      none := by
  rw [calculateImpliedVolatility, if_pos hT]

lemma calcIV_some_spec {P S K T r : ℝ} {optionType : String} {q : ℝ}
    {maxIterations : ℕ} {tol sigma : ℝ}
    (h : calculateImpliedVolatility P S K T r optionType q maxIterations tol =
      some sigma) :
    |blackScholesPrice S K T r sigma optionType q - P| < tol ∧
      0.001 ≤ sigma ∧ sigma ≤ 5 := by
  rw [calculateImpliedVolatility] at h
  split_ifs at h
  exact ivIter_some_spec P S K T r optionType q tol maxIterations 0.3 sigma
    (by norm_num) (by norm_num) h

lemma calcIV_some_pos {P S K T r : ℝ} {optionType : String} {q : ℝ}
    {maxIterations : ℕ} {tol sigma : ℝ}
    (h : calculateImpliedVolatility P S K T r optionType q maxIterations tol =
      some sigma) : sigma ≠ 0 := by
  have := (calcIV_some_spec h).2.1
  intro h0
  rw [h0] at this
  norm_num at this

/-- Claim C1: for any spot S > 0, strike K > 0, rate, volatility, dividend
yield and time to expiry T ≤ 0, the price function returns exactly the
intrinsic value (max(S-K,0) for a call, max(K-S,0) for a put), delta is the
moneyness step (1 if S > K else 0 for a call, -1 if S < K else 0 for a put),
and gamma, theta, vega and rho are all exactly 0. -/
theorem greeks_boundary_at_expiry (S K T r sigma q : ℝ)
    (hS : 0 < S) (hK : 0 < K) (hT : T ≤ 0) :
    blackScholesPrice S K T r sigma "call" q = max (S - K) 0 ∧
    blackScholesPrice S K T r sigma "put" q = max (K - S) 0 ∧
    calculateDelta S K T r sigma "call" q = (if S > K then 1 else 0) ∧
    calculateDelta S K T r sigma "put" q = (if S < K then -1 else 0) ∧
    calculateGamma S K T r sigma q = 0 ∧
    calculateTheta S K T r sigma "call" q = 0 ∧
    calculateTheta S K T r sigma "put" q = 0 ∧
    calculateVega S K T r sigma q = 0 ∧
    calculateRho S K T r sigma "call" q = 0 ∧
    calculateRho S K T r sigma "put" q = 0 := by
  refine ⟨?_, ?_, ?_, ?_, ?_, ?_, ?_, ?_, ?_, ?_⟩ <;>
    simp [blackScholesPrice, calculateDelta, calculateGamma, calculateTheta,
      calculateVega, calculateRho, hT]

/-- Witness for C1 at S = 2, K = 1, T = 0: the call price is the intrinsic
value 1 and the call delta is 1. -/
theorem greeks_boundary_at_expiry_witness :
    blackScholesPrice 2 1 0 0 1 "call" 0 = 1 ∧
      calculateDelta 2 1 0 0 1 "call" 0 = 1 ∧
      calculateVega 2 1 0 0 1 0 = 0 := by
  obtain ⟨h1, _, h3, _, _, _, _, h8, _, _⟩ :=
    greeks_boundary_at_expiry 2 1 0 0 1 0 (by norm_num) (by norm_num)
      (le_refl 0)
  refine ⟨h1.trans (by norm_num), h3.trans ?_, h8⟩
  rw [if_pos (by norm_num : (2 : ℝ) > 1)]

/-- Claim C8, counterexample: the symmetry cdf(-x) = 1 - cdf(x) fails at the
explicit input x = 0, because the five Abramowitz-Stegun coefficients sum to
exactly 0.999999999, leaving cdf(0) = 0.5 + 5e-10 rather than 0.5. -/
theorem norm_cdf_symmetry_cex : normCDF (-(0 : ℝ)) ≠ 1 - normCDF 0 := by
  rw [neg_zero, normCDF_zero]
  norm_num

/-- Claim C8, amended: the normal CDF satisfies cdf(-x) = 1 - cdf(x) exactly
for every x other than 0; at 0 the approximation returns exactly
0.5 + 5e-10, not 0.5. -/
theorem norm_cdf_symmetry_off_zero (x : ℝ) (hx : x ≠ 0) :
    normCDF (-x) = 1 - normCDF x ∧ normCDF 0 = 0.5 + 5e-10 :=
  ⟨normCDF_symm x hx, normCDF_zero⟩

/-- Witness for the amended C8 at x = 1. -/
theorem norm_cdf_symmetry_off_zero_witness :
    normCDF (-(1 : ℝ)) = 1 - normCDF 1 ∧ normCDF 0 = 0.5 + 5e-10 :=
  norm_cdf_symmetry_off_zero 1 one_ne_zero

/-- Claim C9: when the market price is absent, the signal is HOLD with
confidence 0, edge 0, market price 0, fair value equal to the theoretical
price, and the no-market-price rationale. -/
theorem no_market_price_hold_signal (fmt : ℝ → ℕ → String) (sym : String)
    (strike expMs : ℝ) (ty : String) (md : MarketData)
    (result : AnalysisResult) (edgeThreshold : ℝ) :
    generateTradingSignal fmt ⟨sym, strike, expMs, ty, none⟩ md result
        edgeThreshold =
      { action := "HOLD"
        confidence := 0
        reasoning := "No market price available for analysis"
        fairValue := result.theoreticalPrice
        marketPrice := 0
        edge := 0 } := by
  rw [generateTradingSignal, if_pos]
  exact optTruthy_none

/-- Claim C10: a market price equal to 0 produces a signal identical to the
absent-market-price case: HOLD, confidence 0, edge 0, market price 0. -/
theorem zero_market_price_equals_absent (fmt : ℝ → ℕ → String) (sym : String)
    (strike expMs : ℝ) (ty : String) (md : MarketData)
    (result : AnalysisResult) (edgeThreshold : ℝ) :
    generateTradingSignal fmt ⟨sym, strike, expMs, ty, some 0⟩ md result
        edgeThreshold =
      generateTradingSignal fmt ⟨sym, strike, expMs, ty, none⟩ md result
        edgeThreshold ∧
    (generateTradingSignal fmt ⟨sym, strike, expMs, ty, some 0⟩ md result
        edgeThreshold).action = "HOLD" ∧
    (generateTradingSignal fmt ⟨sym, strike, expMs, ty, some 0⟩ md result
        edgeThreshold).confidence = 0 ∧
    (generateTradingSignal fmt ⟨sym, strike, expMs, ty, some 0⟩ md result
        edgeThreshold).edge = 0 ∧
    (generateTradingSignal fmt ⟨sym, strike, expMs, ty, some 0⟩ md result
        edgeThreshold).marketPrice = 0 := by
  have hz :
      generateTradingSignal fmt ⟨sym, strike, expMs, ty, some 0⟩ md result
          edgeThreshold =
        { action := "HOLD"
          confidence := 0
          reasoning := "No market price available for analysis"
          fairValue := result.theoreticalPrice
          marketPrice := 0
          edge := 0 } := by
    rw [generateTradingSignal, if_pos]
    exact optTruthy_some_zero
  have hn :
      generateTradingSignal fmt ⟨sym, strike, expMs, ty, none⟩ md result
          edgeThreshold =
        { action := "HOLD"
          confidence := 0
          reasoning := "No market price available for analysis"
          fairValue := result.theoreticalPrice
          marketPrice := 0
          edge := 0 } := by
    rw [generateTradingSignal, if_pos]
    exact optTruthy_none
  rw [hz, hn]
  exact ⟨rfl, rfl, rfl, rfl, rfl⟩

lemma max_sub_max_neg (a : ℝ) : max a 0 - max (-a) 0 = a := by
  rcases le_total a 0 with h | h
  · rw [max_eq_right h, max_eq_left (by linarith : (0 : ℝ) ≤ -a)]
    ring
  · rw [max_eq_left h, max_eq_right (by linarith : -a ≤ (0 : ℝ))]
    ring

/-- Claim C2, counterexample: put-call parity within 1e-6 fails at the
explicit input S = 10^12, K = 10^12 exp(1/2), T = 1, r = 0, sigma = 1,
q = 0.  There d1 = 0 exactly, the CDF approximation evaluates both call and
put at 0 where its symmetry defect is 1e-9, and the parity error is exactly
10^12 * 1e-9 = 1000. -/
theorem put_call_parity_tolerance_cex :
    ¬ (|blackScholesPrice (10 ^ 12) (10 ^ 12 * Real.exp (1 / 2)) 1 0 1 "call" 0 -
          blackScholesPrice (10 ^ 12) (10 ^ 12 * Real.exp (1 / 2)) 1 0 1 "put" 0 -
          ((10 ^ 12) * Real.exp (-(0 : ℝ) * 1) -
            (10 ^ 12 * Real.exp (1 / 2)) * Real.exp (-(0 : ℝ) * 1))| < 1e-6) := by
  have h0 : (-(0 : ℝ)) * 1 = 0 := by norm_num
  have hK0 : (10 ^ 12 : ℝ) * Real.exp (1 / 2) ≠ 0 := by positivity
  have hlog :
      Real.log ((10 ^ 12 : ℝ) / ((10 ^ 12 : ℝ) * Real.exp (1 / 2))) =
        -(1 / 2) := by
    rw [Real.log_div (by norm_num) hK0,
      Real.log_mul (by norm_num) (Real.exp_ne_zero _), Real.log_exp]
    ring
  have hd1 : d1 (10 ^ 12) (10 ^ 12 * Real.exp (1 / 2)) 1 0 1 0 = 0 := by
    rw [d1, h0, Real.exp_zero, mul_one, hlog]
    norm_num
  have hd2 : d2 (10 ^ 12) (10 ^ 12 * Real.exp (1 / 2)) 1 0 1 0 = -1 := by
    rw [d2, hd1, Real.sqrt_one]
    ring
  rw [blackScholesPrice, blackScholesPrice]
  rw [if_neg (by norm_num : ¬ (1 : ℝ) ≤ 0)]
  rw [if_neg (by norm_num : ¬ (1 : ℝ) ≤ 0)]
  rw [if_pos rfl, if_neg (by decide : ¬ ("put" : String) = "call")]
  rw [hd1, hd2, h0, Real.exp_zero, neg_neg, neg_zero, normCDF_zero,
    normCDF_symm 1 one_ne_zero]
  have hval :
      (10 ^ 12 : ℝ) * 1 * (0.5 + 5e-10) -
          10 ^ 12 * Real.exp (1 / 2) * 1 * (1 - normCDF 1) -
          (10 ^ 12 * Real.exp (1 / 2) * 1 * normCDF 1 -
            10 ^ 12 * 1 * (0.5 + 5e-10)) -
          (10 ^ 12 * 1 - 10 ^ 12 * Real.exp (1 / 2) * 1) = 1000 := by
    ring
  rw [hval]
  norm_num

/-- Claim C2, amended: for T = 0, and for T > 0 whenever d1 and d2 are both
nonzero, the call price minus the put price equals
S exp(-qT) - K exp(-rT) exactly, hence within the 1e-6 tolerance.  (At
inputs where d1 or d2 is exactly 0 the CDF symmetry defect of 1e-9 enters
scaled by the spot or strike term, and the absolute 1e-6 tolerance can be
exceeded for large spots, as the counterexample shows.) -/
theorem put_call_parity_exact (S K T r sigma q : ℝ)
    (h : T = 0 ∨ (0 < T ∧ d1 S K T r sigma q ≠ 0 ∧ d2 S K T r sigma q ≠ 0)) :
    |blackScholesPrice S K T r sigma "call" q -
        blackScholesPrice S K T r sigma "put" q -
        (S * Real.exp (-q * T) - K * Real.exp (-r * T))| < 1e-6 := by
  have hmain :
      blackScholesPrice S K T r sigma "call" q -
          blackScholesPrice S K T r sigma "put" q =
        S * Real.exp (-q * T) - K * Real.exp (-r * T) := by
    rcases h with rfl | ⟨hT, h1, h2⟩
    · rw [blackScholesPrice, blackScholesPrice, if_pos (le_refl (0 : ℝ)),
        if_pos (le_refl (0 : ℝ)), if_pos rfl,
        if_neg (by decide : ¬ ("put" : String) = "call")]
      simp only [mul_zero, Real.exp_zero, mul_one]
      have := max_sub_max_neg (S - K)
      rw [show -(S - K) = K - S by ring] at this
      exact this
    · rw [blackScholesPrice, blackScholesPrice, if_neg (not_le.2 hT),
        if_neg (not_le.2 hT), if_pos rfl,
        if_neg (by decide : ¬ ("put" : String) = "call")]
      rw [normCDF_symm _ h1, normCDF_symm _ h2]
      ring
  rw [hmain]
  norm_num

/-- Witness for the amended C2 at S = K = 1, T = 1, r = 0, sigma = 1, q = 0,
where d1 = 1/2 and d2 = -1/2 are both nonzero. -/
theorem put_call_parity_exact_witness :
    |blackScholesPrice 1 1 1 0 1 "call" 0 - blackScholesPrice 1 1 1 0 1 "put" 0 -
        (1 * Real.exp (-(0 : ℝ) * 1) - 1 * Real.exp (-(0 : ℝ) * 1))| < 1e-6 := by
  have hd1 : d1 1 1 1 0 1 0 = 1 / 2 := by
    rw [d1]
    rw [show (-(0 : ℝ)) * 1 = 0 by norm_num, Real.exp_zero, Real.sqrt_one]
    norm_num [Real.log_one]
  have hd2 : d2 1 1 1 0 1 0 = -(1 / 2) := by
    rw [d2, hd1, Real.sqrt_one]
    ring
  exact put_call_parity_exact 1 1 1 0 1 0
    (Or.inr ⟨by norm_num, by rw [hd1]; norm_num, by rw [hd2]; norm_num⟩)

/-- Claim C3: with a truthy market price and a positive edge threshold, a
time to expiry strictly below 0.02 forces AVOID with confidence 0.8
regardless of the edge; otherwise, with c = min(|edge|/threshold, 1), the
action is BUY with confidence c exactly when edge > threshold (so edge equal
to the threshold is not a BUY), SELL with confidence c exactly when
edge < -threshold, and HOLD with confidence 1 - c otherwise. -/
theorem signal_threshold_classification (fmt : ℝ → ℕ → String)
    (contract : OptionContract) (md : MarketData) (result : AnalysisResult)
    (edgeThreshold p : ℝ) (hp : contract.currentPrice = some p) (hp0 : p ≠ 0)
    (hth : 0 < edgeThreshold) :
    (result.timeToExpiry < 0.02 →
      (generateTradingSignal fmt contract md result edgeThreshold).action =
          "AVOID" ∧
        (generateTradingSignal fmt contract md result edgeThreshold).confidence =
          0.8) ∧
    (¬ result.timeToExpiry < 0.02 →
      ((generateTradingSignal fmt contract md result edgeThreshold).action =
          "BUY" ↔ edgeOf result.theoreticalPrice p > edgeThreshold) ∧
      ((generateTradingSignal fmt contract md result edgeThreshold).action =
          "SELL" ↔ edgeOf result.theoreticalPrice p < -edgeThreshold) ∧
      ((generateTradingSignal fmt contract md result edgeThreshold).action =
          "HOLD" ↔
        (-edgeThreshold ≤ edgeOf result.theoreticalPrice p ∧
          edgeOf result.theoreticalPrice p ≤ edgeThreshold)) ∧
      ((generateTradingSignal fmt contract md result edgeThreshold).action =
          "HOLD" →
        (generateTradingSignal fmt contract md result edgeThreshold).confidence =
          1 - min (|edgeOf result.theoreticalPrice p| / edgeThreshold) 1) ∧
      ((generateTradingSignal fmt contract md result edgeThreshold).action ≠
          "HOLD" →
        (generateTradingSignal fmt contract md result edgeThreshold).confidence =
          min (|edgeOf result.theoreticalPrice p| / edgeThreshold) 1)) := by
  simp only [generateTradingSignal, hp, Option.getD_some]
  rw [if_neg (not_not_intro (optTruthy_some hp0))]
  by_cases hT : result.timeToExpiry < 0.02
  · rw [if_pos hT]
    exact ⟨fun _ => ⟨rfl, rfl⟩, fun h => absurd hT h⟩
  · rw [if_neg hT]
    refine ⟨fun h => absurd h hT, fun _ => ?_⟩
    by_cases hb : edgeOf result.theoreticalPrice p > edgeThreshold
    · rw [if_pos hb]
      refine ⟨by simp [hb], ⟨?_, ?_⟩, ⟨?_, ?_⟩, ?_, fun _ => by simp⟩
      · intro h
        exact absurd h (by simp)
      · intro hs
        exfalso
        linarith
      · intro h
        exact absurd h (by simp)
      · rintro ⟨h1, h2⟩
        exfalso
        linarith
      · intro h
        exact absurd h (by simp)
    · rw [if_neg hb]
      by_cases hs : edgeOf result.theoreticalPrice p < -edgeThreshold
      · rw [if_pos hs]
        refine ⟨⟨?_, ?_⟩, by simp [hs], ⟨?_, ?_⟩, ?_, fun _ => by simp⟩
        · intro h
          exact absurd h (by simp)
        · intro hbuy
          exfalso
          linarith
        · intro h
          exact absurd h (by simp)
        · rintro ⟨h1, h2⟩
          exfalso
          linarith
        · intro h
          exact absurd h (by simp)
      · rw [if_neg hs]
        refine ⟨⟨?_, ?_⟩, ⟨?_, ?_⟩, ⟨?_, ?_⟩, fun _ => by simp, ?_⟩
        · intro h
          exact absurd h (by simp)
        · intro hbuy
          exact absurd hbuy hb
        · intro h
          exact absurd h (by simp)
        · intro hsell
          exact absurd hsell hs
        · intro _
          exact ⟨not_lt.1 hs, not_lt.1 hb⟩
        · intro _
          rfl
        · intro h
          exact absurd (by simp) h

/-- Witness for C3: fair value 2.52 against market price 2 with threshold
0.1 and a year to expiry yields a BUY (edge 26 percent). -/
theorem signal_threshold_classification_witness :
    (generateTradingSignal (fun _ _ => "") ⟨"X", 100, 0, "call", some 2⟩
        ⟨100, 0.05, 0, 0⟩ ⟨2.52, 0.5, 0.06, -0.04, 0.11, 0.11, 0.2, 1⟩
        0.1).action = "BUY" := by
  have h := signal_threshold_classification (fun _ _ => "")
    ⟨"X", 100, 0, "call", some 2⟩ ⟨100, 0.05, 0, 0⟩
    ⟨2.52, 0.5, 0.06, -0.04, 0.11, 0.11, 0.2, 1⟩ 0.1 2 rfl (by norm_num)
    (by norm_num)
  have hT :
      ¬ ((⟨2.52, 0.5, 0.06, -0.04, 0.11, 0.11, 0.2, 1⟩ :
          AnalysisResult).timeToExpiry < 0.02) := by
    show ¬ (1 : ℝ) < 0.02
    norm_num
  have he :
      edgeOf (⟨2.52, 0.5, 0.06, -0.04, 0.11, 0.11, 0.2, 1⟩ :
          AnalysisResult).theoreticalPrice 2 > 0.1 := by
    show edgeOf 2.52 2 > 0.1
    rw [edgeOf, if_pos (by norm_num : (2 : ℝ) > 0)]
    norm_num
  exact ((h.2 hT).1).mpr he

/-- Claim C4: the volatility used by analyzeOption for the price and all
five Greeks is resolved by precedence (truthy estimate first, else a solve
from a truthy market price whose successful result is used, else the 0.3
default, also on an unsolvable solve), and the returned bundle carries that
resolved volatility and the computed time to expiry. -/
theorem volatility_resolution_precedence (contract : OptionContract)
    (md : MarketData) (volEst : Option ℝ) :
    (analyzeOption contract md volEst).timeToExpiry =
      timeToExpiration contract.expirationMs md.timestampMs ∧
    (analyzeOption contract md volEst).theoreticalPrice =
      blackScholesPrice md.underlyingPrice contract.strikePrice
        (analyzeOption contract md volEst).timeToExpiry md.riskFreeRate
        (analyzeOption contract md volEst).impliedVolatility
        contract.optionType md.dividendYield ∧
    (analyzeOption contract md volEst).delta =
      calculateDelta md.underlyingPrice contract.strikePrice
        (analyzeOption contract md volEst).timeToExpiry md.riskFreeRate
        (analyzeOption contract md volEst).impliedVolatility
        contract.optionType md.dividendYield ∧
    (analyzeOption contract md volEst).gamma =
      calculateGamma md.underlyingPrice contract.strikePrice
        (analyzeOption contract md volEst).timeToExpiry md.riskFreeRate
        (analyzeOption contract md volEst).impliedVolatility
        md.dividendYield ∧
    (analyzeOption contract md volEst).theta =
      calculateTheta md.underlyingPrice contract.strikePrice
        (analyzeOption contract md volEst).timeToExpiry md.riskFreeRate
        (analyzeOption contract md volEst).impliedVolatility
        contract.optionType md.dividendYield ∧
    (analyzeOption contract md volEst).vega =
      calculateVega md.underlyingPrice contract.strikePrice
        (analyzeOption contract md volEst).timeToExpiry md.riskFreeRate
        (analyzeOption contract md volEst).impliedVolatility
        md.dividendYield ∧
    (analyzeOption contract md volEst).rho =
      calculateRho md.underlyingPrice contract.strikePrice
        (analyzeOption contract md volEst).timeToExpiry md.riskFreeRate
        (analyzeOption contract md volEst).impliedVolatility
        contract.optionType md.dividendYield ∧
    (∀ v, volEst = some v → v ≠ 0 →
      (analyzeOption contract md volEst).impliedVolatility = v) ∧
    (∀ p sigma, ¬ optTruthy volEst → contract.currentPrice = some p →
      p ≠ 0 →
      calculateImpliedVolatility p md.underlyingPrice contract.strikePrice
        (timeToExpiration contract.expirationMs md.timestampMs)
        md.riskFreeRate contract.optionType md.dividendYield 100 (1e-6) =
        some sigma →
      (analyzeOption contract md volEst).impliedVolatility = sigma) ∧
    (¬ optTruthy volEst → ¬ optTruthy contract.currentPrice →
      (analyzeOption contract md volEst).impliedVolatility = 0.3) ∧
    (∀ p, ¬ optTruthy volEst → contract.currentPrice = some p → p ≠ 0 →
      calculateImpliedVolatility p md.underlyingPrice contract.strikePrice
        (timeToExpiration contract.expirationMs md.timestampMs)
        md.riskFreeRate contract.optionType md.dividendYield 100 (1e-6) =
        none →
      (analyzeOption contract md volEst).impliedVolatility = 0.3) := by
  refine ⟨rfl, rfl, rfl, rfl, rfl, rfl, rfl, ?_, ?_, ?_, ?_⟩
  · intro v hv hv0
    subst hv
    have ht := optTruthy_some hv0
    have hcond :
        ¬ (¬ optTruthy (some v) ∧ optTruthy contract.currentPrice) :=
      fun hc => hc.1 ht
    simp only [analyzeOption]
    rw [if_neg hcond, if_pos ht, Option.getD_some]
  · intro p sigma hve hcp hp0 hsolve
    have hcpt : optTruthy contract.currentPrice := by
      rw [hcp]
      exact optTruthy_some hp0
    have hcond : ¬ optTruthy volEst ∧ optTruthy contract.currentPrice :=
      ⟨hve, hcpt⟩
    simp only [analyzeOption]
    rw [if_pos hcond, hcp]
    simp only [Option.getD_some]
    rw [hsolve, if_pos (optTruthy_some (calcIV_some_pos hsolve)),
      Option.getD_some]
  · intro hve hcp
    have hcond :
        ¬ (¬ optTruthy volEst ∧ optTruthy contract.currentPrice) :=
      fun hc => hcp hc.2
    simp only [analyzeOption]
    rw [if_neg hcond, if_neg hve]
  · intro p hve hcp hp0 hnone
    have hcpt : optTruthy contract.currentPrice := by
      rw [hcp]
      exact optTruthy_some hp0
    have hcond : ¬ optTruthy volEst ∧ optTruthy contract.currentPrice :=
      ⟨hve, hcpt⟩
    simp only [analyzeOption]
    rw [if_pos hcond, hcp]
    simp only [Option.getD_some]
    rw [hnone, if_neg optTruthy_none]

/-- Witness for C4: no estimate and market price 5 on an already expired
contract (T clamps to 0, so the solve is unsolvable) resolves to the 0.3
default. -/
theorem volatility_resolution_precedence_witness :
    (analyzeOption ⟨"X", 100, 0, "call", some 5⟩ ⟨100, 0.05, 0, 1000⟩
        none).impliedVolatility = 0.3 := by
  obtain ⟨_, _, _, _, _, _, _, _, _, _, hdef⟩ :=
    volatility_resolution_precedence ⟨"X", 100, 0, "call", some 5⟩
      ⟨100, 0.05, 0, 1000⟩ none
  have hT :
      timeToExpiration (⟨"X", 100, 0, "call", some 5⟩ :
          OptionContract).expirationMs
        (⟨100, 0.05, 0, 1000⟩ : MarketData).timestampMs = 0 := by
    show timeToExpiration 0 1000 = 0
    rw [timeToExpiration, SECONDS_PER_YEAR]
    rw [max_eq_right (by norm_num : (0 - 1000) / (365.25 * 24 * 3600 * 1000) ≤ (0 : ℝ))]
  refine hdef 5 optTruthy_none rfl (by norm_num) ?_
  rw [hT]
  exact calcIV_nonpos 5 100 100 0 0.05 "call" 0 100 (1e-6) (le_refl 0)

/-- Claim C5: in a produced PnL projection the current option price is the
market price when positive and the theoretical price otherwise, the total
investment is positionSize times that price times 100, each displayed target
is revalued with the pricing function at the target spot with strike, time
to expiry, rate, resolved volatility, type and dividend yield unchanged, and
for every target pnl = totalTargetValue - totalInvestment and
pnlPercent = 100 * pnl / totalInvestment exactly. -/
theorem pnl_projection_consistency (contract : OptionContract)
    (md : MarketData) (result : AnalysisResult) (signal : TradingSignal)
    (pos : ℝ) (targets : List ℝ) (hpos : pos ≠ 0) (hne : targets ≠ [])
    (hmp : 0 ≤ signal.marketPrice) :
    displayPnLAnalysis contract md result signal (some pos) targets =
      some
        (if 0 < signal.marketPrice then signal.marketPrice
          else result.theoreticalPrice,
         pos *
            (if 0 < signal.marketPrice then signal.marketPrice
              else result.theoreticalPrice) * 100,
         ((targets.take 3).filter (fun t => decide (t ≠ 0))).map
            (calculateTargetPnL contract md result pos
              (pos *
                (if 0 < signal.marketPrice then signal.marketPrice
                  else result.theoreticalPrice) * 100))) ∧
    ∀ e ∈ ((targets.take 3).filter (fun t => decide (t ≠ 0))).map
        (calculateTargetPnL contract md result pos
          (pos *
            (if 0 < signal.marketPrice then signal.marketPrice
              else result.theoreticalPrice) * 100)),
      e.targetOptionValue =
        blackScholesPrice e.targetPrice contract.strikePrice
          result.timeToExpiry md.riskFreeRate result.impliedVolatility
          contract.optionType md.dividendYield ∧
      e.totalTargetValue = pos * e.targetOptionValue * 100 ∧
      e.pnl = e.totalTargetValue -
        pos *
          (if 0 < signal.marketPrice then signal.marketPrice
            else result.theoreticalPrice) * 100 ∧
      e.pnlPercent = 100 * e.pnl /
        (pos *
          (if 0 < signal.marketPrice then signal.marketPrice
            else result.theoreticalPrice) * 100) := by
  have hcop :
      (if signal.marketPrice ≠ 0 then signal.marketPrice
        else result.theoreticalPrice) =
      (if 0 < signal.marketPrice then signal.marketPrice
        else result.theoreticalPrice) := by
    rcases eq_or_lt_of_le hmp with h | h
    · rw [if_neg (not_not_intro h.symm), if_neg (by rw [← h]; exact lt_irrefl 0)]
    · rw [if_pos (ne_of_gt h), if_pos h]
  constructor
  · rw [displayPnLAnalysis, if_neg]
    · simp only [Option.getD_some]
      rw [hcop]
    · rintro (h | h)
      · exact h (optTruthy_some hpos)
      · exact hne h
  · intro e he
    simp only [List.mem_map] at he
    obtain ⟨t, ht, rfl⟩ := he
    refine ⟨rfl, rfl, rfl, ?_⟩
    simp only [calculateTargetPnL]
    ring

/-- Witness for C5: 10 contracts at market price 2 with a single target 110
produce a projection with current price 2 and total investment 2000. -/
theorem pnl_projection_consistency_witness :
    displayPnLAnalysis ⟨"X", 100, 0, "call", some 2⟩ ⟨100, 0.05, 0, 0⟩
        ⟨2.52, 0.5, 0.06, -0.04, 0.11, 0.11, 0.2, 1⟩ ⟨"BUY", 1, "", 2.52, 2, 0.26⟩
        (some 10) [110] =
      some (2, 2000,
        [calculateTargetPnL ⟨"X", 100, 0, "call", some 2⟩ ⟨100, 0.05, 0, 0⟩
          ⟨2.52, 0.5, 0.06, -0.04, 0.11, 0.11, 0.2, 1⟩ 10 2000 110]) := by
  have h :=
    (pnl_projection_consistency ⟨"X", 100, 0, "call", some 2⟩
      ⟨100, 0.05, 0, 0⟩ ⟨2.52, 0.5, 0.06, -0.04, 0.11, 0.11, 0.2, 1⟩
      ⟨"BUY", 1, "", 2.52, 2, 0.26⟩ 10 [110] (by norm_num)
      (by simp) (by show (0 : ℝ) ≤ 2; norm_num)).1
  rw [h]
  have hmp2 :
      (if 0 < (⟨"BUY", 1, "", 2.52, 2, 0.26⟩ : TradingSignal).marketPrice
        then (⟨"BUY", 1, "", 2.52, 2, 0.26⟩ : TradingSignal).marketPrice
        else (⟨2.52, 0.5, 0.06, -0.04, 0.11, 0.11, 0.2, 1⟩ :
          AnalysisResult).theoreticalPrice) = 2 := by
    rw [if_pos]
    show (0 : ℝ) < 2
    norm_num
  rw [hmp2]
  have hfil :
      (([(110 : ℝ)].take 3).filter (fun t => decide (t ≠ 0))) = [(110 : ℝ)] := by
    simp
  rw [hfil]
  norm_num

/-- Claim C6: the implied-volatility solver returns none whenever T ≤ 0; any
returned volatility reproduces the observed price within the tolerance and
lies in [0.001, 5]; the loop stops with none when vega is exactly 0 at a
non-converged iterate; and exhausting the iteration budget yields none. -/
theorem implied_vol_solver_contract (P S K T r : ℝ) (optionType : String)
    (q tol : ℝ) (n : ℕ) (vol : ℝ) :
    (T ≤ 0 →
      calculateImpliedVolatility P S K T r optionType q 100 (1e-6) = none) ∧
    (∀ sigma,
      calculateImpliedVolatility P S K T r optionType q n tol = some sigma →
      |blackScholesPrice S K T r sigma optionType q - P| < tol ∧
        0.001 ≤ sigma ∧ sigma ≤ 5) ∧
    (¬ |blackScholesPrice S K T r vol optionType q - P| < tol →
      calculateVega S K T r vol q * 100 = 0 →
      ivIter P S K T r optionType q tol (n + 1) vol = none) ∧
    ivIter P S K T r optionType q tol 0 vol = none := by
  refine ⟨fun hT => calcIV_nonpos P S K T r optionType q 100 (1e-6) hT,
    fun sigma h => calcIV_some_spec h, fun hc hv => ?_, rfl⟩
  rw [ivIter, if_neg hc, if_pos hv]

/-- Witness for C6: at T = 0 the solver returns none. -/
theorem implied_vol_solver_contract_witness :
    calculateImpliedVolatility 1 100 100 0 0.05 "call" 0 100 (1e-6) = none :=
  (implied_vol_solver_contract 1 100 100 0 0.05 "call" 0 (1e-6) 100 0.3).1
    (le_refl 0)

end
